import Mathlib

/-!
Verification of the sleep-tracker storage and statistics module.

Shallow embedding of `src/hooks/useSleepStorage.ts` (both the local-only
and the remote-synced variant), `src/types/auth.ts` (the user-settings
hook), `src/services/notifications.ts` and the data model of
`src/types/sleep.ts` / the settings type definitions.

Modelling conventions:
* Instants (`Date` values / ISO strings) are integers: milliseconds since
  the epoch, exactly what `Date.getTime()` returns and what every
  comparison and subtraction in the source operates on.
* JavaScript numbers are embedded as rationals (`ℚ`); `Math.round` is
  `jsRound` (round half toward positive infinity), `Math.floor` is `⌊·⌋`.
* Local calendar time is modelled with a fixed UTC offset `off` (in ms):
  the local wall clock of instant `t` is `t + off`.  `setHours(0,0,0,0)`
  on a date is then the start of the local calendar day containing it.
* Asynchronous backend calls are modelled by explicit success flags and
  explicit state passing; a thrown error is `Except.error`.
-/

/-- JavaScript `Math.round`: round half toward positive infinity. -/
def jsRound (q : ℚ) : ℤ := ⌊q + 1/2⌋

/-- Local calendar day index of instant `t` (ms) under fixed offset `off`:
the floor of the local time in days.  `setHours(0,0,0,0)` applied to `t`
yields the instant `localDay off t * 86400000 - off`. -/
def localDay (off t : ℤ) : ℤ := (t + off) / 86400000

/-- `SleepEntry` from `src/types/sleep.ts`: bedtime and wake time are
instants (the ISO strings are modelled by the ms value they denote). -/
structure SleepEntry where
  id : String
  bedtime : ℤ
  wakeTime : ℤ
  duration : ℚ
  note : Option String
  quality : Option ℤ
deriving DecidableEq

/-- `WeeklyStats` from `src/types/sleep.ts`.  `dayLabels` holds the local
calendar day index of each bucket (the source renders it as a locale
weekday string, a locale-rendering concern abstracted here). -/
structure WeeklyStats where
  dayLabels : List ℤ
  dailyDurations : List ℚ
  averageDuration : ℚ
  totalEntries : ℕ
deriving DecidableEq

/-- Error taxonomy of the repository: a failed backend write/read. -/
inductive StorageError where
  | storageFailure
deriving DecidableEq

/-- `note?.trim() || undefined`: trim, and normalize empty to absent. -/
def normalizeNote (note : Option String) : Option String :=
  match note with
  | none => none
  | some s => let t := s.trim; if t = "" then none else some t

namespace Local

/-- `calculateDuration` from `src/hooks/useSleepStorage.ts:24` (local
variant): difference in ms, one 24h wrap if negative, converted to hours
and rounded to one decimal place. -/
def calculateDuration (bedtime wakeTime : ℤ) : ℚ :=
  let diff := wakeTime - bedtime
  let diff2 := if diff < 0 then diff + 24 * 60 * 60 * 1000 else diff
  (jsRound ((diff2 : ℚ) / (1000 * 60 * 60) * 10) : ℚ) / 10

/-- `formatDuration` from `src/hooks/useSleepStorage.ts:39` (local
variant). -/
def formatDuration (hours : ℚ) : String :=
  let h := ⌊hours⌋
  let m := jsRound ((hours - h) * 60)
  if m = 0 then toString h ++ "h"
  else toString h ++ "h " ++ toString m ++ "m"

end Local

/-- "Rounded to one decimal place" as the spec words it: scale by ten,
`Math.round`, scale back. -/
def roundTo1dp (q : ℚ) : ℚ := (jsRound (q * 10) : ℚ) / 10

/-- **C1** (amended).  `calculateDuration` returns the raw difference in
hours rounded to one decimal when `wakeTime ≥ bedtime`, the difference
plus 24h when `wakeTime < bedtime`, equal inputs give 0, and the result
is nonnegative whenever `wakeTime ≥ bedtime − 24h`; a wake time more than
24 hours before bedtime still yields a negative result (see the
counterexample), so unrestricted nonnegativity fails. -/
theorem calculateDuration_correct (bedtime wakeTime : ℤ) :
    (bedtime ≤ wakeTime →
      Local.calculateDuration bedtime wakeTime =
        roundTo1dp (((wakeTime - bedtime : ℤ) : ℚ) / (1000 * 60 * 60))) ∧
    (wakeTime < bedtime →
      Local.calculateDuration bedtime wakeTime =
        roundTo1dp (((wakeTime - bedtime + 24 * 60 * 60 * 1000 : ℤ) : ℚ) / (1000 * 60 * 60))) ∧
    (bedtime - 24 * 60 * 60 * 1000 ≤ wakeTime →
      0 ≤ Local.calculateDuration bedtime wakeTime) ∧
    (wakeTime = bedtime → Local.calculateDuration bedtime wakeTime = 0) := by
  refine ⟨?_, ?_, ?_, ?_⟩
  · intro h
    have hd : ¬ (wakeTime - bedtime < 0) := by omega
    simp [Local.calculateDuration, roundTo1dp, hd]
  · intro h
    have hd : wakeTime - bedtime < 0 := by omega
    simp [Local.calculateDuration, roundTo1dp, hd]
  · intro h
    have key : ∀ d : ℤ, 0 ≤ d → 0 ≤ (jsRound ((d : ℚ) / (1000 * 60 * 60) * 10) : ℚ) / 10 := by
      intro d hd
      have h1 : (0 : ℚ) ≤ (d : ℚ) / (1000 * 60 * 60) * 10 := by positivity
      have h2 : (0 : ℤ) ≤ jsRound ((d : ℚ) / (1000 * 60 * 60) * 10) := by
        rw [jsRound, Int.le_floor]
        push_cast
        linarith
      have h3 : (0 : ℚ) ≤ (jsRound ((d : ℚ) / (1000 * 60 * 60) * 10) : ℚ) := by
        exact_mod_cast h2
      positivity
    by_cases hd : wakeTime - bedtime < 0
    · have := key (wakeTime - bedtime + 24 * 60 * 60 * 1000) (by omega)
      simpa [Local.calculateDuration, hd] using this
    · have := key (wakeTime - bedtime) (by omega)
      simpa [Local.calculateDuration, hd] using this
  · intro h
    subst h
    simp [Local.calculateDuration, jsRound]
    norm_num

/-- Witness for C1: a night from bedtime 0 to wake time 7.5 hours later
evaluates to 7.5 hours (75/10), via the first branch of the theorem. -/
theorem calculateDuration_correct_witness :
    Local.calculateDuration 0 27000000 =
      roundTo1dp (((27000000 - 0 : ℤ) : ℚ) / (1000 * 60 * 60)) :=
  (calculateDuration_correct 0 27000000).1 (by decide)

/-- Counterexample for C1 as stated: with the wake time two days before
bedtime the single 24h wrap leaves a negative difference, and the
function returns −24, a negative value. -/
theorem calculateDuration_negative_counterexample :
    Local.calculateDuration 172800000 0 < 0 := by
  have h : Local.calculateDuration 172800000 0 = -24 := by
    simp only [Local.calculateDuration, jsRound]
    norm_num
  rw [h]
  norm_num

/-- The comparator of the snapshot sort in `useSleepStorage.ts:97/174`:
`(a, b) => new Date(b.bedtime).getTime() - new Date(a.bedtime).getTime()`
orders `a` before `b` when `a`'s bedtime is at least `b`'s. -/
def bedtimeGE (a b : SleepEntry) : Prop := b.bedtime ≤ a.bedtime

instance : DecidableRel bedtimeGE := fun a b =>
  (inferInstance : Decidable (b.bedtime ≤ a.bedtime))

instance : IsTotal SleepEntry bedtimeGE := ⟨fun a b => le_total b.bedtime a.bedtime⟩

instance : IsTrans SleepEntry bedtimeGE := ⟨fun _ _ _ h1 h2 => le_trans h2 h1⟩

/-- The repository invariant claimed by the spec: the snapshot is sorted
by bedtime descending (most recent first). -/
def SortedDesc (l : List SleepEntry) : Prop := List.Sorted bedtimeGE l

instance (l : List SleepEntry) : Decidable (SortedDesc l) :=
  (inferInstance : Decidable (List.Pairwise bedtimeGE l))

namespace Local

/-- `addEntry` from `useSleepStorage.ts:127` (local variant), with the
generated id, the backend-write outcome and the snapshot made explicit.
The new entry is prepended (`[newEntry, ...entries]`); a failing
`saveEntries` throws before `setEntries`, leaving the snapshot as it
was. -/
def addEntry (writeOk : Bool) (newId : String) (bedtime wakeTime : ℤ)
    (note : Option String) (entries : List SleepEntry) :
    List SleepEntry × Except StorageError SleepEntry :=
  let duration := calculateDuration bedtime wakeTime
  let newEntry : SleepEntry :=
    { id := newId, bedtime := bedtime, wakeTime := wakeTime,
      duration := duration, note := normalizeNote note, quality := none }
  let updatedEntries := newEntry :: entries
  if writeOk then (updatedEntries, Except.ok newEntry)
  else (entries, Except.error StorageError.storageFailure)

/-- `updateEntry` from `useSleepStorage.ts:151` (local variant):
`findIndex` on the id, returning `null` when absent; otherwise the entry
at that index is replaced and the whole snapshot is re-sorted by the
bedtime-descending comparator before saving. -/
def updateEntry (writeOk : Bool) (id : String) (bedtime wakeTime : ℤ)
    (note : Option String) (entries : List SleepEntry) :
    List SleepEntry × Except StorageError (Option SleepEntry) :=
  match entries.findIdx? (fun e => e.id == id) with
  | none => (entries, Except.ok none)
  | some index =>
    let duration := calculateDuration bedtime wakeTime
    let updatedEntry : SleepEntry :=
      { id := id, bedtime := bedtime, wakeTime := wakeTime,
        duration := duration, note := normalizeNote note, quality := none }
    let updatedEntries := List.insertionSort bedtimeGE (entries.set index updatedEntry)
    if writeOk then (updatedEntries, Except.ok (some updatedEntry))
    else (entries, Except.error StorageError.storageFailure)

/-- `deleteEntry` from `useSleepStorage.ts:186` (local variant): filter
out the id; when nothing was removed return `false` without touching the
backend; otherwise save (which may throw) and return `true`. -/
def deleteEntry (writeOk : Bool) (id : String) (entries : List SleepEntry) :
    List SleepEntry × Except StorageError Bool :=
  let updatedEntries := entries.filter (fun e => e.id != id)
  if updatedEntries.length = entries.length then (entries, Except.ok false)
  else if writeOk then (updatedEntries, Except.ok true)
  else (entries, Except.error StorageError.storageFailure)

end Local

namespace Remote

/-- `deleteEntry` from the remote variant (`useSleepStorage.ts:487`):
the row delete filtered by id reports an error only on transport
failure; with a reachable backend the function filters the snapshot and
returns `true` whether or not any row matched. -/
def deleteEntry (dbOk : Bool) (id : String) (entries : List SleepEntry) :
    List SleepEntry × Except StorageError Bool :=
  if dbOk then (entries.filter (fun e => e.id != id), Except.ok true)
  else (entries, Except.error StorageError.storageFailure)

end Remote

/-- **C2** (amended).  `updateEntry` always leaves a sorted snapshot
(given a sorted starting snapshot, covering its not-found and
failed-write branches, which keep the old snapshot), and `addEntry`
preserves sortedness when the new bedtime is at least every bedtime
already present; a historical `add` merely prepends and can leave the
snapshot unsorted (see the counterexample). -/
theorem snapshot_sorted_after_mutation (writeOk : Bool) (newId : String)
    (bedtime wakeTime : ℤ) (note : Option String) (entries : List SleepEntry)
    (hs : SortedDesc entries) :
    SortedDesc (Local.updateEntry writeOk newId bedtime wakeTime note entries).1 ∧
    ((∀ e ∈ entries, e.bedtime ≤ bedtime) →
      SortedDesc (Local.addEntry writeOk newId bedtime wakeTime note entries).1) := by
  constructor
  · unfold Local.updateEntry
    cases h : entries.findIdx? (fun e => e.id == newId) with
    | none => exact hs
    | some index =>
      cases writeOk with
      | false => exact hs
      | true => exact List.sorted_insertionSort bedtimeGE _
  · intro hle
    unfold Local.addEntry
    cases writeOk with
    | false => exact hs
    | true =>
      refine List.pairwise_cons.mpr ⟨?_, hs⟩
      intro e he
      exact hle e he

/-- Witness for C2: updating the sole entry of a one-entry snapshot, and
adding a most-recent entry on top of it, both leave a sorted snapshot. -/
theorem snapshot_sorted_after_mutation_witness :
    SortedDesc (Local.updateEntry true "a" 5 6 none
      [{ id := "a", bedtime := 3, wakeTime := 4, duration := 0, note := none, quality := none }]).1 ∧
    SortedDesc (Local.addEntry true "b" 9 10 none
      [{ id := "a", bedtime := 3, wakeTime := 4, duration := 0, note := none, quality := none }]).1 := by
  have h := snapshot_sorted_after_mutation true "a" 5 6 none
    [{ id := "a", bedtime := 3, wakeTime := 4, duration := 0, note := none, quality := none }]
    (by decide)
  have h2 := snapshot_sorted_after_mutation true "b" 9 10 none
    [{ id := "a", bedtime := 3, wakeTime := 4, duration := 0, note := none, quality := none }]
    (by decide)
  exact ⟨h.1, h2.2 (by decide)⟩

/-- Counterexample for C2 as stated: adding an entry whose bedtime lies
before the existing entry's bedtime prepends it without re-sorting, so
the snapshot is no longer sorted by bedtime descending. -/
theorem snapshot_sorted_counterexample :
    ¬ SortedDesc (Local.addEntry true "b" 0 1 none
      [{ id := "a", bedtime := 86400000, wakeTime := 86400001, duration := 0,
         note := none, quality := none }]).1 := by
  decide

/-- **C7**.  When the backend write fails, `addEntry` throws a storage
error and the in-memory snapshot is exactly the previous one: the error
path of `saveEntries` runs before `setEntries`, so no partial state
change occurs. -/
theorem addEntry_failed_write_atomic (newId : String) (bedtime wakeTime : ℤ)
    (note : Option String) (entries : List SleepEntry) :
    Local.addEntry false newId bedtime wakeTime note entries =
      (entries, Except.error StorageError.storageFailure) := rfl

/-- **C3** (amended).  For an id absent from the snapshot, the local
`deleteEntry` returns the unsuccessful result `false` and leaves the
snapshot untouched; the remote `deleteEntry` also leaves the snapshot
unchanged in length and contents, but reports success (`true`) rather
than a not-found failure, because the row delete does not distinguish "no
matching row" from "deleted". -/
theorem deleteEntry_absent_id (writeOk : Bool) (id : String)
    (entries : List SleepEntry) (h : ∀ e ∈ entries, e.id ≠ id) :
    Local.deleteEntry writeOk id entries = (entries, Except.ok false) ∧
    Remote.deleteEntry true id entries = (entries, Except.ok true) := by
  have hfilter : entries.filter (fun e => e.id != id) = entries := by
    rw [List.filter_eq_self]
    intro e he
    simpa using h e he
  constructor
  · unfold Local.deleteEntry
    rw [hfilter]
    simp
  · unfold Remote.deleteEntry
    rw [hfilter]
    simp

/-- Witness for C3: deleting id "zzz" from a one-entry snapshot that does
not contain it leaves the snapshot unchanged, with `false` locally and
`true` remotely. -/
theorem deleteEntry_absent_id_witness :
    Local.deleteEntry true "zzz"
      [{ id := "a", bedtime := 3, wakeTime := 4, duration := 0, note := none, quality := none }] =
      ([{ id := "a", bedtime := 3, wakeTime := 4, duration := 0, note := none, quality := none }],
        Except.ok false) ∧
    Remote.deleteEntry true "zzz"
      [{ id := "a", bedtime := 3, wakeTime := 4, duration := 0, note := none, quality := none }] =
      ([{ id := "a", bedtime := 3, wakeTime := 4, duration := 0, note := none, quality := none }],
        Except.ok true) :=
  deleteEntry_absent_id true "zzz"
    [{ id := "a", bedtime := 3, wakeTime := 4, duration := 0, note := none, quality := none }]
    (by decide)

/-- Counterexample for C3 as stated: the remote backend, on a delete of
an id absent from an empty snapshot, reports success (`Except.ok true`)
instead of a not-found failure. -/
theorem deleteEntry_remote_counterexample :
    Remote.deleteEntry true "missing" [] = ([], Except.ok true) := rfl

namespace Local

/-- `getWeeklyStats` from `useSleepStorage.ts:225` (local variant): loop
`i = 6 .. 0`, each iteration taking the date `i` days before `now`,
bucketing entries whose bedtime lies between that date's local
`setHours(0,0,0,0)` and `setHours(23,59,59,999)` instants, summing their
durations; the average is over the buckets with positive total, rounded
to one decimal place; `totalEntries` is the snapshot length. -/
def getWeeklyStats (off now : ℤ) (entries : List SleepEntry) : WeeklyStats :=
  let dayData := ([6, 5, 4, 3, 2, 1, 0] : List ℤ).map (fun i =>
    let date := now - i * 86400000
    let dayStart := localDay off date * 86400000 - off
    let dayEnd := dayStart + 86399999
    let dayEntries := entries.filter (fun e =>
      decide (dayStart ≤ e.bedtime) && decide (e.bedtime ≤ dayEnd))
    (localDay off date, (dayEntries.map (fun e => e.duration)).sum))
  let dayLabels := dayData.map (fun p => p.1)
  let dailyDurations := dayData.map (fun p => p.2)
  let daysWithData := dailyDurations.filter (fun d => decide (0 < d))
  let averageDuration :=
    if 0 < daysWithData.length then daysWithData.sum / (daysWithData.length : ℚ) else 0
  { dayLabels := dayLabels, dailyDurations := dailyDurations,
    averageDuration := (jsRound (averageDuration * 10) : ℚ) / 10,
    totalEntries := entries.length }

end Local

/-- The entries whose bedtime falls in local calendar day `d` — the
spec's day-bucketing criterion. -/
def entriesOnDay (off d : ℤ) (entries : List SleepEntry) : List SleepEntry :=
  entries.filter (fun e => decide (localDay off e.bedtime = d))

/-- The spec-side day bucket value: sum of durations of all entries whose
bedtime falls in local calendar day `d`. -/
def dayTotalOn (off d : ℤ) (entries : List SleepEntry) : ℚ :=
  ((entriesOnDay off d entries).map (fun e => e.duration)).sum

/-- Shifting an instant by whole days shifts its local day index. -/
theorem localDay_shift (off now i : ℤ) :
    localDay off (now - i * 86400000) = localDay off now - i := by
  unfold localDay
  omega

/-- Membership in the `[setHours(0,0,0,0), setHours(23,59,59,999)]` window
of day `d` is exactly having local day index `d` (instants are integer
milliseconds, so the window's last millisecond closes the day). -/
theorem filter_day_eq (off d : ℤ) (entries : List SleepEntry) :
    entries.filter (fun e =>
      decide (d * 86400000 - off ≤ e.bedtime) &&
      decide (e.bedtime ≤ d * 86400000 - off + 86399999)) =
    entriesOnDay off d entries := by
  unfold entriesOnDay
  apply List.filter_congr
  intro e _
  have hiff : (d * 86400000 - off ≤ e.bedtime ∧
      e.bedtime ≤ d * 86400000 - off + 86399999) ↔ localDay off e.bedtime = d := by
    unfold localDay
    omega
  by_cases hA : d * 86400000 - off ≤ e.bedtime
  · by_cases hB : e.bedtime ≤ d * 86400000 - off + 86399999
    · simp [hA, hB, hiff.mp ⟨hA, hB⟩]
    · have hC : ¬ (localDay off e.bedtime = d) := fun hc => hB (hiff.mpr hc).2
      simp [hA, hB, hC]
  · have hC : ¬ (localDay off e.bedtime = d) := fun hc => hA (hiff.mpr hc).1
    simp [hA, hC]

/-- The bucket computed for loop index `i` is the spec bucket of day
`today − i`. -/
theorem bucket_eq (off now i : ℤ) (entries : List SleepEntry) :
    entries.filter (fun e =>
      decide (localDay off (now - i * 86400000) * 86400000 - off ≤ e.bedtime) &&
      decide (e.bedtime ≤ localDay off (now - i * 86400000) * 86400000 - off + 86399999)) =
    entriesOnDay off (localDay off now - i) entries := by
  rw [localDay_shift]
  exact filter_day_eq off (localDay off now - i) entries

/-- The computed bucket sum for day `d` equals the spec-side bucket
total. -/
theorem dayTotal_eq (off d : ℤ) (entries : List SleepEntry) :
    ((entries.filter (fun e =>
        decide (d * 86400000 - off ≤ e.bedtime) &&
        decide (e.bedtime ≤ d * 86400000 - off + 86399999))).map (fun e => e.duration)).sum =
    dayTotalOn off d entries := by
  rw [filter_day_eq]
  rfl

/-- The day labels of the computed stats: the 7 local calendar days
ending today, oldest first. -/
theorem weekly_dayLabels_eq (off now : ℤ) (entries : List SleepEntry) :
    (Local.getWeeklyStats off now entries).dayLabels =
      [localDay off now - 6, localDay off now - 5, localDay off now - 4,
       localDay off now - 3, localDay off now - 2, localDay off now - 1,
       localDay off now] := by
  simp only [Local.getWeeklyStats, List.map_cons, List.map_nil, localDay_shift]
  norm_num

/-- The daily durations of the computed stats: the spec-side bucket
totals of the 7 local calendar days ending today, oldest first. -/
theorem weekly_dailyDurations_eq (off now : ℤ) (entries : List SleepEntry) :
    (Local.getWeeklyStats off now entries).dailyDurations =
      [dayTotalOn off (localDay off now - 6) entries,
       dayTotalOn off (localDay off now - 5) entries,
       dayTotalOn off (localDay off now - 4) entries,
       dayTotalOn off (localDay off now - 3) entries,
       dayTotalOn off (localDay off now - 2) entries,
       dayTotalOn off (localDay off now - 1) entries,
       dayTotalOn off (localDay off now) entries] := by
  simp only [Local.getWeeklyStats, List.map_cons, List.map_nil, localDay_shift, sub_zero]
  simp only [dayTotal_eq]

/-- Over the empty snapshot the stats are 7 zero buckets, average 0 and
total 0. -/
theorem weekly_empty_eq (off now : ℤ) :
    Local.getWeeklyStats off now [] =
      { dayLabels := [localDay off now - 6, localDay off now - 5, localDay off now - 4,
          localDay off now - 3, localDay off now - 2, localDay off now - 1, localDay off now],
        dailyDurations := [0, 0, 0, 0, 0, 0, 0],
        averageDuration := 0, totalEntries := 0 } := by
  simp only [Local.getWeeklyStats, List.map_cons, List.map_nil, localDay_shift,
    List.filter_nil, List.sum_nil, jsRound]
  norm_num

/-- **C5**.  `getWeeklyStats` produces exactly 7 day-buckets covering
`[today − 6, today]` in chronological order (oldest first, today last),
each value the sum of durations of entries whose bedtime falls in that
local calendar day; over the empty snapshot it returns 7 zero buckets,
average 0 and `totalEntries` 0. -/
theorem getWeeklyStats_buckets (off now : ℤ) (entries : List SleepEntry) :
    (Local.getWeeklyStats off now entries).dayLabels =
      [localDay off now - 6, localDay off now - 5, localDay off now - 4,
       localDay off now - 3, localDay off now - 2, localDay off now - 1,
       localDay off now] ∧
    (Local.getWeeklyStats off now entries).dailyDurations =
      [dayTotalOn off (localDay off now - 6) entries,
       dayTotalOn off (localDay off now - 5) entries,
       dayTotalOn off (localDay off now - 4) entries,
       dayTotalOn off (localDay off now - 3) entries,
       dayTotalOn off (localDay off now - 2) entries,
       dayTotalOn off (localDay off now - 1) entries,
       dayTotalOn off (localDay off now) entries] ∧
    Local.getWeeklyStats off now [] =
      { dayLabels := [localDay off now - 6, localDay off now - 5, localDay off now - 4,
          localDay off now - 3, localDay off now - 2, localDay off now - 1, localDay off now],
        dailyDurations := [0, 0, 0, 0, 0, 0, 0],
        averageDuration := 0, totalEntries := 0 } :=
  ⟨weekly_dayLabels_eq off now entries, weekly_dailyDurations_eq off now entries,
    weekly_empty_eq off now⟩

/-- The average field of the computed stats, read back from the
definition: round-to-one-decimal of the mean of the positive buckets, or
of 0 when there is none. -/
theorem weekly_average_eq (off now : ℤ) (entries : List SleepEntry) :
    (Local.getWeeklyStats off now entries).averageDuration =
      (let dw := (Local.getWeeklyStats off now entries).dailyDurations.filter
        (fun d => decide (0 < d))
       (jsRound ((if 0 < dw.length then dw.sum / (dw.length : ℚ) else 0) * 10) : ℚ) / 10) := rfl

/-- A day bucket total is nonnegative when all stored durations are. -/
theorem dayTotalOn_nonneg (off d : ℤ) (entries : List SleepEntry)
    (h : ∀ e ∈ entries, 0 ≤ e.duration) : 0 ≤ dayTotalOn off d entries := by
  unfold dayTotalOn
  apply List.sum_nonneg
  intro x hx
  obtain ⟨e, he, rfl⟩ := List.mem_map.1 hx
  exact h e (List.mem_filter.1 he).1

/-- All seven computed buckets are nonnegative when all stored durations
are. -/
theorem weekly_dailyDurations_nonneg (off now : ℤ) (entries : List SleepEntry)
    (h : ∀ e ∈ entries, 0 ≤ e.duration) :
    ∀ d ∈ (Local.getWeeklyStats off now entries).dailyDurations, 0 ≤ d := by
  intro d hd
  rw [weekly_dailyDurations_eq] at hd
  simp only [List.mem_cons, List.not_mem_nil, or_false] at hd
  rcases hd with h1|h1|h1|h1|h1|h1|h1 <;>
    (subst h1; exact dayTotalOn_nonneg off _ entries h)

/-- **C4**.  With nonnegative stored durations (the data-model invariant
on `duration`), `getWeeklyStats` averages exactly over the days whose
total is nonzero, rounded to one decimal place; when every day's total is
zero the average is 0; and `totalEntries` is the full snapshot length,
not the count inside the window. -/
theorem getWeeklyStats_average (off now : ℤ) (entries : List SleepEntry)
    (h : ∀ e ∈ entries, 0 ≤ e.duration) :
    ((Local.getWeeklyStats off now entries).averageDuration =
      (let nz := (Local.getWeeklyStats off now entries).dailyDurations.filter
        (fun d => decide (d ≠ 0))
       if 0 < nz.length then roundTo1dp (nz.sum / (nz.length : ℚ)) else 0)) ∧
    ((∀ d ∈ (Local.getWeeklyStats off now entries).dailyDurations, d = 0) →
      (Local.getWeeklyStats off now entries).averageDuration = 0) ∧
    (Local.getWeeklyStats off now entries).totalEntries = entries.length := by
  have hnn := weekly_dailyDurations_nonneg off now entries h
  have hsw : (Local.getWeeklyStats off now entries).dailyDurations.filter
      (fun d => decide (0 < d)) =
      (Local.getWeeklyStats off now entries).dailyDurations.filter
      (fun d => decide (d ≠ 0)) := by
    apply List.filter_congr
    intro d hd
    have h0 := hnn d hd
    by_cases hz : d = 0
    · subst hz; simp
    · have hpos : 0 < d := lt_of_le_of_ne h0 (Ne.symm hz)
      simp [hpos, hz]
  refine ⟨?_, ?_, ?_⟩
  · rw [weekly_average_eq, hsw]
    simp only []
    split_ifs with hlen
    · rfl
    · simp [jsRound]
      norm_num
  · intro hz
    rw [weekly_average_eq]
    have hnil : (Local.getWeeklyStats off now entries).dailyDurations.filter
        (fun d => decide (0 < d)) = [] := by
      rw [List.filter_eq_nil_iff]
      intro d hd
      rw [hz d hd]
      simp
    rw [hnil]
    simp [jsRound]
    norm_num
  · rfl

/-- Witness for C4: over the empty snapshot (vacuously nonnegative
durations) the reported `totalEntries` is the snapshot length, 0. -/
theorem getWeeklyStats_average_witness :
    (Local.getWeeklyStats 0 0 []).totalEntries = 0 :=
  (getWeeklyStats_average 0 0 [] (by simp)).2.2

namespace Remote

/-- `calculateDuration` from `useSleepStorage.ts:297` (remote variant):
textually identical to the local variant. -/
def calculateDuration (bedtime wakeTime : ℤ) : ℚ :=
  let diff := wakeTime - bedtime
  let diff2 := if diff < 0 then diff + 24 * 60 * 60 * 1000 else diff
  (jsRound ((diff2 : ℚ) / (1000 * 60 * 60) * 10) : ℚ) / 10

/-- `formatDuration` from `useSleepStorage.ts:312` (remote variant):
textually identical to the local variant. -/
def formatDuration (hours : ℚ) : String :=
  let h := ⌊hours⌋
  let m := jsRound ((hours - h) * 60)
  if m = 0 then toString h ++ "h"
  else toString h ++ "h " ++ toString m ++ "m"

/-- `getWeeklyStats` from `useSleepStorage.ts:535` (remote variant):
textually identical to the local variant. -/
def getWeeklyStats (off now : ℤ) (entries : List SleepEntry) : WeeklyStats :=
  let dayData := ([6, 5, 4, 3, 2, 1, 0] : List ℤ).map (fun i =>
    let date := now - i * 86400000
    let dayStart := localDay off date * 86400000 - off
    let dayEnd := dayStart + 86399999
    let dayEntries := entries.filter (fun e =>
      decide (dayStart ≤ e.bedtime) && decide (e.bedtime ≤ dayEnd))
    (localDay off date, (dayEntries.map (fun e => e.duration)).sum))
  let dayLabels := dayData.map (fun p => p.1)
  let dailyDurations := dayData.map (fun p => p.2)
  let daysWithData := dailyDurations.filter (fun d => decide (0 < d))
  let averageDuration :=
    if 0 < daysWithData.length then daysWithData.sum / (daysWithData.length : ℚ) else 0
  { dayLabels := dayLabels, dailyDurations := dailyDurations,
    averageDuration := (jsRound (averageDuration * 10) : ℚ) / 10,
    totalEntries := entries.length }

end Remote

/-- **C6**.  The local-only and the remote-synced backends agree on the
shared storage/statistics logic: `calculateDuration`, `formatDuration`
and `getWeeklyStats` return identical results on every input (same entry
snapshot, same current instant and timezone offset). -/
theorem backends_equivalent (bedtime wakeTime : ℤ) (hours : ℚ)
    (off now : ℤ) (entries : List SleepEntry) :
    Local.calculateDuration bedtime wakeTime = Remote.calculateDuration bedtime wakeTime ∧
    Local.formatDuration hours = Remote.formatDuration hours ∧
    Local.getWeeklyStats off now entries = Remote.getWeeklyStats off now entries :=
  ⟨rfl, rfl, rfl⟩

/-- `UserSettings` from the settings type definitions (app format). -/
structure UserSettings where
  id : String
  userId : String
  targetHours : ℚ
  reminderEnabled : Bool
  reminderTime : String
  onboardingCompleted : Bool
  createdAt : String
  updatedAt : String
deriving DecidableEq

/-- `DbUserSettings`: the snake_case row of the `user_settings` table. -/
structure DbUserSettings where
  id : String
  user_id : String
  target_hours : ℚ
  reminder_enabled : Bool
  reminder_time : String
  onboarding_completed : Bool
  created_at : String
  updated_at : String
deriving DecidableEq

/-- `toUserSettings` from `src/types/auth.ts:52`: db row to app format. -/
def toUserSettings (db : DbUserSettings) : UserSettings :=
  { id := db.id, userId := db.user_id, targetHours := db.target_hours,
    reminderEnabled := db.reminder_enabled, reminderTime := db.reminder_time,
    onboardingCompleted := db.onboarding_completed,
    createdAt := db.created_at, updatedAt := db.updated_at }

/-- The database row backing an in-memory settings record (inverse of
`toUserSettings`, used to model what the `update` statement reads). -/
def toDbRow (s : UserSettings) : DbUserSettings :=
  { id := s.id, user_id := s.userId, target_hours := s.targetHours,
    reminder_enabled := s.reminderEnabled, reminder_time := s.reminderTime,
    onboarding_completed := s.onboardingCompleted,
    created_at := s.createdAt, updated_at := s.updatedAt }

/-- `DEFAULT_SETTINGS` from `src/types/auth.ts:66`. -/
structure DefaultSettings where
  targetHours : ℚ
  reminderEnabled : Bool
  reminderTime : String
  onboardingCompleted : Bool

/-- The documented defaults for new users. -/
def DEFAULT_SETTINGS : DefaultSettings :=
  { targetHours := 8, reminderEnabled := false,
    reminderTime := "22:00", onboardingCompleted := false }

/-- Outcome of the `user_settings` select: a row, the PGRST116 "no rows"
condition, or a transport failure. -/
inductive FetchOutcome where
  | row (r : DbUserSettings)
  | noRows
  | failure
deriving DecidableEq

/-- `createDefaultSettings` from `src/types/auth.ts:121`: insert the
defaults (the database attaches the generated id and timestamps) and
return the created record; a failed insert is caught and yields `none`. -/
def createDefaultSettings (insertOk : Bool)
    (genId createdAt updatedAt userId : String) : Option UserSettings :=
  if insertOk then
    some (toUserSettings
      { id := genId, user_id := userId,
        target_hours := DEFAULT_SETTINGS.targetHours,
        reminder_enabled := DEFAULT_SETTINGS.reminderEnabled,
        reminder_time := DEFAULT_SETTINGS.reminderTime,
        onboarding_completed := DEFAULT_SETTINGS.onboardingCompleted,
        created_at := createdAt, updated_at := updatedAt })
  else none

/-- `fetchSettings` from `src/types/auth.ts:82` for an authenticated
user, returning the pair (settings state, error state).  On a fetched
row the row is used; on PGRST116 the defaults are created and installed
(a failed insert is swallowed, leaving no error); on any other error the
previous settings are kept and the error flag is set. -/
def fetchSettings (prev : Option UserSettings) (fetched : FetchOutcome)
    (insertOk : Bool) (genId createdAt updatedAt userId : String) :
    Option UserSettings × Option String :=
  match fetched with
  | FetchOutcome.row r => (some (toUserSettings r), none)
  | FetchOutcome.noRows =>
      (createDefaultSettings insertOk genId createdAt updatedAt userId, none)
  | FetchOutcome.failure => (prev, some "Failed to load settings")

/-- **C8**.  When the settings load finds no record (PGRST116), it
creates one with exactly the defaults `targetHours = 8.0`,
`reminderEnabled = false`, `reminderTime = "22:00"`,
`onboardingCompleted = false` and returns that created record; and the
absence of a record never raises the error flag, whatever the insert
outcome. -/
theorem fetchSettings_creates_defaults (prev : Option UserSettings)
    (genId createdAt updatedAt userId : String) :
    fetchSettings prev FetchOutcome.noRows true genId createdAt updatedAt userId =
      (some { id := genId, userId := userId, targetHours := 8,
              reminderEnabled := false, reminderTime := "22:00",
              onboardingCompleted := false,
              createdAt := createdAt, updatedAt := updatedAt }, none) ∧
    (∀ insertOk : Bool,
      (fetchSettings prev FetchOutcome.noRows insertOk genId createdAt updatedAt userId).2 =
        none) :=
  ⟨rfl, fun insertOk => by cases insertOk <;> rfl⟩

/-- `UpdateSettingsInput` from the settings type definitions: the
optional subset of fields to merge. -/
structure UpdateSettingsInput where
  targetHours : Option ℚ := none
  reminderEnabled : Option Bool := none
  reminderTime : Option String := none
  onboardingCompleted : Option Bool := none
deriving DecidableEq

/-- The `dbUpdates` merge of `updateSettings` (`src/types/auth.ts:152`):
only the supplied fields are written, plus the `updated_at` stamp; the
database returns the fully merged row. -/
def applyDbUpdates (row : DbUserSettings) (updates : UpdateSettingsInput)
    (nowStr : String) : DbUserSettings :=
  { row with
    target_hours := updates.targetHours.getD row.target_hours,
    reminder_enabled := updates.reminderEnabled.getD row.reminder_enabled,
    reminder_time := updates.reminderTime.getD row.reminder_time,
    onboarding_completed := updates.onboardingCompleted.getD row.onboarding_completed,
    updated_at := nowStr }

/-- A call made by `updateSettings` to the notification collaborator
(`src/services/notifications.ts`): the scheduling interface takes
`(reminderTime, targetHours)`; the cancel interface cancels all
scheduled reminders. -/
inductive NotifCall where
  | schedule (reminderTime : String) (targetHours : ℚ)
  | cancelAll
deriving DecidableEq

/-- `scheduleBedtimeReminder` from `src/services/notifications.ts:58`:
schedules the daily reminder and returns the notification identifier;
any failure is caught inside and surfaces only as `none` — the function
never throws into its caller. -/
def scheduleBedtimeReminder (osOk : Bool) (newIdentifier : String)
    (_reminderTime : String) (_targetHours : ℚ) : Option String :=
  if osOk then some newIdentifier else none

/-- Result of a settings update: the settings state, the boolean the
function returns, the error state, and the calls made to the
notification collaborator. -/
structure UpdateResult where
  settings : UserSettings
  success : Bool
  error : Option String
  notifCalls : List NotifCall
deriving DecidableEq

/-- `updateSettings` from `src/types/auth.ts:148` for an authenticated
user with loaded settings.  On a successful database update the merged
record replaces the in-memory settings; then exactly one notification
call is made: the scheduling interface with the merged record's
`(reminderTime, targetHours)` when `reminderEnabled` is true, otherwise
the cancel-all interface.  The collaborator's own outcome (`osOk`) is
discarded (`scheduleBedtimeReminder` catches internally), so it cannot
affect the returned success.  A failed database update returns `false`
with the previous settings and an error flag. -/
def updateSettings (dbOk osOk : Bool) (newIdentifier nowStr : String)
    (settings : UserSettings) (updates : UpdateSettingsInput) : UpdateResult :=
  if dbOk then
    let updatedSettings := toUserSettings (applyDbUpdates (toDbRow settings) updates nowStr)
    let calls :=
      if updatedSettings.reminderEnabled then
        let _ := scheduleBedtimeReminder osOk newIdentifier
          updatedSettings.reminderTime updatedSettings.targetHours
        [NotifCall.schedule updatedSettings.reminderTime updatedSettings.targetHours]
      else [NotifCall.cancelAll]
    { settings := updatedSettings, success := true, error := none, notifCalls := calls }
  else
    { settings := settings, success := false,
      error := some "Failed to update settings", notifCalls := [] }

/-- **C9**.  On a successful settings update, if the merged record has
`reminderEnabled = true` the scheduling interface is called exactly once
with `(reminderTime, targetHours)` of the merged record and cancel-all is
not called; if `false`, cancel-all is called exactly once and scheduling
is not; never both; and the collaborator's outcome (`osOk`) cannot make
the update fail — `success` is `true` either way. -/
theorem updateSettings_notification (osOk : Bool) (newIdentifier nowStr : String)
    (s : UserSettings) (updates : UpdateSettingsInput) :
    ((toUserSettings (applyDbUpdates (toDbRow s) updates nowStr)).reminderEnabled = true →
      (updateSettings true osOk newIdentifier nowStr s updates).notifCalls =
        [NotifCall.schedule
          (toUserSettings (applyDbUpdates (toDbRow s) updates nowStr)).reminderTime
          (toUserSettings (applyDbUpdates (toDbRow s) updates nowStr)).targetHours]) ∧
    ((toUserSettings (applyDbUpdates (toDbRow s) updates nowStr)).reminderEnabled = false →
      (updateSettings true osOk newIdentifier nowStr s updates).notifCalls =
        [NotifCall.cancelAll]) ∧
    (updateSettings true osOk newIdentifier nowStr s updates).success = true := by
  refine ⟨?_, ?_, ?_⟩
  · intro h
    simp [updateSettings, h]
  · intro h
    simp [updateSettings, h]
  · rfl

/-- Witness for C9: enabling the reminder with time "07:00" on a record
with target 8 hours makes exactly the one scheduling call
`("07:00", 8)`; disabling it makes exactly the one cancel-all call. -/
theorem updateSettings_notification_witness :
    (updateSettings true true "n1" "t1"
      { id := "s", userId := "u", targetHours := 8, reminderEnabled := false,
        reminderTime := "22:00", onboardingCompleted := true,
        createdAt := "c", updatedAt := "t0" }
      { targetHours := none, reminderEnabled := some true,
        reminderTime := some "07:00", onboardingCompleted := none }).notifCalls =
      [NotifCall.schedule "07:00" 8] ∧
    (updateSettings true true "n1" "t1"
      { id := "s", userId := "u", targetHours := 8, reminderEnabled := true,
        reminderTime := "22:00", onboardingCompleted := true,
        createdAt := "c", updatedAt := "t0" }
      { targetHours := none, reminderEnabled := some false,
        reminderTime := none, onboardingCompleted := none }).notifCalls =
      [NotifCall.cancelAll] :=
  ⟨(updateSettings_notification true "n1" "t1"
      { id := "s", userId := "u", targetHours := 8, reminderEnabled := false,
        reminderTime := "22:00", onboardingCompleted := true,
        createdAt := "c", updatedAt := "t0" }
      { targetHours := none, reminderEnabled := some true,
        reminderTime := some "07:00", onboardingCompleted := none }).1 rfl,
   (updateSettings_notification true "n1" "t1"
      { id := "s", userId := "u", targetHours := 8, reminderEnabled := true,
        reminderTime := "22:00", onboardingCompleted := true,
        createdAt := "c", updatedAt := "t0" }
      { targetHours := none, reminderEnabled := some false,
        reminderTime := none, onboardingCompleted := none }).2.1 rfl⟩

/-- **C10**.  `formatDuration`'s minutes component can reach 60: for any
nonnegative hours whose fractional part is at least 59.5/60 (e.g. 7.995),
the rounded minutes equal 60 and the result is the string "<h>h 60m" —
no carry into the hour part. -/
theorem formatDuration_sixty_minutes (hours : ℚ) (_h0 : 0 ≤ hours)
    (hfrac : 119/120 ≤ Int.fract hours) :
    jsRound ((hours - (⌊hours⌋ : ℚ)) * 60) = 60 ∧
    Local.formatDuration hours = toString ⌊hours⌋ ++ "h 60m" := by
  have hf1 : Int.fract hours < 1 := Int.fract_lt_one hours
  simp only [Int.fract] at hfrac hf1
  have hm : jsRound ((hours - (⌊hours⌋ : ℚ)) * 60) = 60 := by
    rw [jsRound, Int.floor_eq_iff]
    constructor
    · push_cast
      linarith
    · push_cast
      linarith
  refine ⟨hm, ?_⟩
  simp only [Local.formatDuration, hm]
  norm_num
  rw [show toString (60 : ℤ) = "60" from by decide]
  rw [String.append_assoc, String.append_assoc]
  rw [show ("h " ++ ("60" ++ "m")) = "h 60m" from by decide]

/-- Witness for C10: `formatDuration 7.995` is the string "7h 60m". -/
theorem formatDuration_sixty_minutes_witness :
    Local.formatDuration (1599/200) = "7h 60m" := by
  have hfl : ⌊(1599/200 : ℚ)⌋ = 7 := by
    rw [Int.floor_eq_iff]
    norm_num
  have h := formatDuration_sixty_minutes (1599/200) (by norm_num)
    (by simp only [Int.fract, hfl]; norm_num)
  rw [h.2, hfl]
  decide
